import Mathlib

/-!
Shallow embedding of the office/employee record service: the Mongoose
schemas (models/Employee, models/Office) and the Express route handlers
(routes/employees.js, routes/offices.js).

Modelling conventions:
- JS numbers for course counts are modeled as `Int`; timestamps as `Int`.
- A route `:id` parameter is an `IdParam`: either a well-formed ObjectId
  (a `Nat` key) or a malformed string.  `findById` on a malformed id
  throws a CastError whose `kind` is `"ObjectId"` and whose `name` is
  `"CastError"`; this is what the route `catch` blocks inspect.
- A request body field that may be absent (`undefined`) is an `Option`.
- The store is a list of documents; `Employee.find` is `List.filter`,
  `findById` is `List.find?`.
- The authentication middleware (`protect`, `admin`) is external to this
  core: handlers receive the already-authenticated caller `req.user`,
  and the admin-only freeze/unfreeze/office-mutation handlers are
  modeled as the code that runs after the middleware has passed.
- Floating-point arithmetic in the dashboard (sums and the completion
  percentage) is modeled over `ℚ`; `Number.prototype.toFixed 2` is
  rounding to the nearest multiple of 1/100 (ties upward, which is what
  toFixed does for nonnegative values).
-/

/-- An employee document as stored (models/Employee schema fields). -/
structure Employee where
  id : Nat
  name : String
  officeId : Nat
  isRegisteredOnIGOT : Bool
  coursesEnrolled : Int
  coursesCompleted : Int
  reportDate : Int
  isFrozen : Bool
  createdBy : Nat
  createdAt : Int
  updatedAt : Int
  deriving DecidableEq

/-- An office document as stored (models/Office schema fields). -/
structure Office where
  id : Nat
  name : String
  location : String
  description : Option String
  createdBy : Nat
  createdAt : Int
  deriving DecidableEq

/-- The authenticated caller (`req.user`), provided by the external auth
middleware: an id, a role string (`"admin"` or not), and an office. -/
structure User where
  id : Nat
  role : String
  officeId : Nat
  deriving DecidableEq

/-- Dashboard summary payload (GET /employees/dashboard). -/
structure Dashboard where
  totalEmployees : Nat
  registeredOnIGOT : Nat
  notRegisteredOnIGOT : Nat
  totalCoursesEnrolled : Int
  totalCoursesCompleted : Int
  completionRate : ℚ
  deriving DecidableEq

/-- The `data` field of a JSON response envelope. -/
inductive RespData where
  | noData
  | emp : Employee → RespData
  | emps : List Employee → RespData
  | office : Office → RespData
  | dash : Dashboard → RespData
  | emptyObj
  deriving DecidableEq

/-- The uniform JSON response envelope together with the HTTP status. -/
structure Response where
  status : Nat
  success : Bool
  message : Option String
  count : Option Nat
  data : RespData
  deriving DecidableEq

/-- Failure envelope: `res.status(st).json({success:false, message})`. -/
def failResp (st : Nat) (msg : String) : Response :=
  { status := st, success := false, message := some msg,
    count := Option.none, data := RespData.noData }

/-- Success envelope with a data payload and no count or message. -/
def okData (st : Nat) (d : RespData) : Response :=
  { status := st, success := true, message := Option.none,
    count := Option.none, data := d }

/-- Success envelope with a count (list endpoints). -/
def okCount (st : Nat) (c : Nat) (d : RespData) : Response :=
  { status := st, success := true, message := Option.none,
    count := some c, data := d }

/-- Success envelope with a message (freeze/unfreeze endpoints). -/
def okMsg (st : Nat) (msg : String) (d : RespData) : Response :=
  { status := st, success := true, message := some msg,
    count := Option.none, data := d }

/-- A route `:id` parameter: either a well-formed ObjectId or a
malformed string that the store cannot cast. -/
inductive IdParam where
  | valid : Nat → IdParam
  | malformed : String → IdParam
  deriving DecidableEq

/-- Errors thrown by the store: a CastError from a malformed ObjectId,
or a ValidationError carrying the per-field messages. -/
inductive MErr where
  | castObjectId
  | validation : List String → MErr
  deriving DecidableEq

/-- The `err.name` the catch blocks compare against. -/
def MErr.errName : MErr → String
  | .castObjectId => "CastError"
  | .validation _ => "ValidationError"

/-- The `err.kind` the catch blocks compare against (only CastError from
an ObjectId cast has one). -/
def MErr.errKind : MErr → Option String
  | .castObjectId => some "ObjectId"
  | .validation _ => Option.none

/-- The schema validator for `coursesEnrolled`:
`this.isRegisteredOnIGOT ? val >= 0 : val === 0`.  The `this` context is
passed explicitly: `some` of the document field when validating a save
(document context), `Option.none` when validating an update, where
`this` is the query object and the field reads as `undefined` (falsy). -/
def enrolledValidator (thisReg : Option Bool) (val : Int) : Bool :=
  if thisReg.getD false then 0 ≤ val else val = 0

/-- The schema validator for `coursesCompleted`:
`val <= this.coursesEnrolled`.  In update context `this.coursesEnrolled`
is `undefined` and `val <= undefined` is false in JS for every `val`. -/
def completedValidator (thisEnrolled : Option Int) (val : Int) : Bool :=
  match thisEnrolled with
  | some e => val ≤ e
  | Option.none => false

/-- Model of the schema `trim: true` setter (`String.trim`): strip
leading and trailing whitespace.  Written by structural recursion over
the character list so that concrete instances evaluate. -/
def strTrim (s : String) : String :=
  ⟨((s.data.dropWhile Char.isWhitespace).reverse.dropWhile
      Char.isWhitespace).reverse⟩

/-- Validation of a `name` path: `required` (fails on `undefined` and on
the empty string after `trim`) and `maxlength 100`. -/
def nameFieldMsgs (requiredMsg : String) (name : Option String) : List String :=
  match name with
  | Option.none => [requiredMsg]
  | some n =>
    if strTrim n = "" then [requiredMsg]
    else if 100 < (strTrim n).length then ["Name cannot be more than 100 characters"]
    else []

/-- Document validation run by `Employee.create` / `save`: every path is
validated, with `this` bound to the document itself.  Messages are
collected in schema declaration order. -/
def empValidationMsgs (name : Option String) (officeId : Option Nat)
    (reg : Bool) (enrolled completed : Int) : List String :=
  nameFieldMsgs "Please add employee name" name
  ++ (if officeId.isNone then ["Please add office"] else [])
  ++ (if enrolledValidator (some reg) enrolled then []
      else ["Courses enrolled should be 0 if not registered on iGOT platform"])
  ++ (if completedValidator (some enrolled) completed then []
      else ["Courses completed cannot be more than courses enrolled"])

/-- The employee store. -/
abbrev EmpDB := List Employee

/-- The office store. -/
abbrev OffDB := List Office

/-- `Employee.findById`: throws on a malformed id, otherwise resolves to
the matching document or `none`. -/
def empFindById (db : EmpDB) : IdParam → Except MErr (Option Employee)
  | .malformed _ => .error .castObjectId
  | .valid i => .ok (db.find? (fun e => e.id == i))

/-- `Employee.create`: applies schema defaults, runs the document
validators, runs the `pre('save')` hook (which sets `updatedAt` to the
current time), and appends the document.  `reportDate` and `createdBy`
are always supplied by the route, so their `required` checks pass. -/
def employeeCreate (db : EmpDB) (nid : Nat) (now : Int)
    (name : Option String) (officeId : Option Nat)
    (isRegisteredOnIGOT : Option Bool)
    (coursesEnrolled coursesCompleted : Option Int)
    (reportDate : Int) (createdBy : Nat) :
    Except MErr (Employee × EmpDB) :=
  let reg := isRegisteredOnIGOT.getD false
  let enrolledV := coursesEnrolled.getD 0
  let completedV := coursesCompleted.getD 0
  let msgs := empValidationMsgs name officeId reg enrolledV completedV
  if msgs = [] then
    let doc : Employee :=
      { id := nid
        name := strTrim (name.getD "")
        officeId := officeId.getD 0
        isRegisteredOnIGOT := reg
        coursesEnrolled := enrolledV
        coursesCompleted := completedV
        reportDate := reportDate
        isFrozen := false
        createdBy := createdBy
        createdAt := now
        updatedAt := now }
    .ok (doc, db ++ [doc])
  else
    .error (.validation msgs)

/-- The update body accepted by PUT /employees/:id (`req.body`): each
field is present or absent. -/
structure EmployeeBody where
  name : Option String
  officeId : Option Nat
  isRegisteredOnIGOT : Option Bool
  coursesEnrolled : Option Int
  coursesCompleted : Option Int
  reportDate : Option Int
  deriving DecidableEq

/-- The create body accepted by POST /employees (same fields; the route
destructures exactly these from `req.body`). -/
abbrev CreateBody := EmployeeBody

/-- Update validation run by `findByIdAndUpdate` with
`runValidators: true`: validators run only on the paths present in the
update, and `this` is the query object, so the sibling document fields
read as `undefined` (hence the `Option.none` contexts). -/
def empUpdateValidationMsgs (b : EmployeeBody) : List String :=
  (match b.name with
   | Option.none => []
   | some n => nameFieldMsgs "Please add employee name" (some n))
  ++ (match b.coursesEnrolled with
      | Option.none => []
      | some v => if enrolledValidator Option.none v then []
          else ["Courses enrolled should be 0 if not registered on iGOT platform"])
  ++ (match b.coursesCompleted with
      | Option.none => []
      | some v => if completedValidator Option.none v then []
          else ["Courses completed cannot be more than courses enrolled"])

/-- Merging an update into a stored document.  `updatedAt` is left
untouched: `findByIdAndUpdate` does not run the `pre('save')` hook. -/
def applyUpdate (b : EmployeeBody) (e : Employee) : Employee :=
  { e with
    name := match b.name with
      | some n => strTrim n
      | Option.none => e.name
    officeId := b.officeId.getD e.officeId
    isRegisteredOnIGOT := b.isRegisteredOnIGOT.getD e.isRegisteredOnIGOT
    coursesEnrolled := b.coursesEnrolled.getD e.coursesEnrolled
    coursesCompleted := b.coursesCompleted.getD e.coursesCompleted
    reportDate := b.reportDate.getD e.reportDate }

/-- `Employee.findByIdAndUpdate(id, body, {new:true, runValidators:true})`. -/
def empFindByIdAndUpdate (db : EmpDB) (p : IdParam) (b : EmployeeBody) :
    Except MErr (Option Employee × EmpDB) :=
  match p with
  | .malformed _ => .error .castObjectId
  | .valid i =>
    let msgs := empUpdateValidationMsgs b
    if msgs = [] then
      match db.find? (fun e => e.id == i) with
      | Option.none => .ok (Option.none, db)
      | some e =>
        let e2 := applyUpdate b e
        .ok (some e2, db.map (fun x => if x.id == i then e2 else x))
    else
      .error (.validation msgs)

/-- `Employee.findByIdAndUpdate(id, {isFrozen: flag}, {new:true})` as
used by freeze/unfreeze: no validators, `updatedAt` untouched. -/
def empSetFrozen (db : EmpDB) (i : Nat) (flag : Bool) :
    Option Employee × EmpDB :=
  match db.find? (fun e => e.id == i) with
  | Option.none => (Option.none, db)
  | some e =>
    let e2 := { e with isFrozen := flag }
    (some e2, db.map (fun x => if x.id == i then e2 else x))

/-- `Employee.findByIdAndDelete`. -/
def empFindByIdAndDelete (db : EmpDB) (p : IdParam) : Except MErr EmpDB :=
  match p with
  | .malformed _ => .error .castObjectId
  | .valid i => .ok (db.filter (fun e => e.id != i))

/-- The records the caller may see: everything for an admin, otherwise
only the caller's own office (`Employee.find({officeId})`). -/
def visibleEmployees (u : User) (db : EmpDB) : List Employee :=
  if u.role ≠ "admin" then db.filter (fun e => e.officeId == u.officeId)
  else db

/-- `toFixed(2)` on a nonnegative value: the nearest multiple of 1/100,
ties rounding upward. -/
def toFixed2 (q : ℚ) : ℚ := (round (q * 100) : ℤ) / 100

/-- GET /employees/dashboard: the summary statistics computed over the
caller's visible records, mirroring the filter/reduce pipeline. -/
def dashboardData (u : User) (db : EmpDB) : Dashboard :=
  let employees := visibleEmployees u db
  let totalEmployees := employees.length
  let registeredOnIGOT := (employees.filter (fun e => e.isRegisteredOnIGOT)).length
  let notRegisteredOnIGOT := totalEmployees - registeredOnIGOT
  let totalCoursesEnrolled : Int := employees.foldl (fun s e => s + e.coursesEnrolled) 0
  let totalCoursesCompleted : Int := employees.foldl (fun s e => s + e.coursesCompleted) 0
  let completionRate : ℚ :=
    if 0 < totalCoursesEnrolled then
      ((totalCoursesCompleted : ℚ) / (totalCoursesEnrolled : ℚ)) * 100
    else 0
  { totalEmployees := totalEmployees
    registeredOnIGOT := registeredOnIGOT
    notRegisteredOnIGOT := notRegisteredOnIGOT
    totalCoursesEnrolled := totalCoursesEnrolled
    totalCoursesCompleted := totalCoursesCompleted
    completionRate := toFixed2 completionRate }

/-- GET /employees/dashboard as a route handler. -/
def dashboardEmployees (u : User) (db : EmpDB) : Response :=
  okData 200 (RespData.dash (dashboardData u db))

/-- The query built by GET /employees/report: a `reportDate` range is
added only when both `startDate` and `endDate` are supplied (in JS,
`if (startDate && endDate)`; an absent or empty parameter is falsy and
is modeled as `Option.none`), and non-admins are restricted to their
own office.  `Employee.find(query)` is a conjunction of conditions. -/
def reportQueryFilter (u : User) (startDate endDate : Option Int)
    (emp : Employee) : Bool :=
  (match startDate, endDate with
   | some s, some e => decide (s ≤ emp.reportDate) && decide (emp.reportDate ≤ e)
   | _, _ => true)
  && (if u.role ≠ "admin" then emp.officeId == u.officeId else true)

/-- The record list returned by GET /employees/report. -/
def reportList (u : User) (db : EmpDB) (startDate endDate : Option Int) :
    List Employee :=
  db.filter (reportQueryFilter u startDate endDate)

/-- GET /employees/report as a route handler. -/
def reportEmployees (u : User) (db : EmpDB) (startDate endDate : Option Int) :
    Response :=
  let emps := reportList u db startDate endDate
  okCount 200 emps.length (RespData.emps emps)

/-- GET /employees/:id.  The catch block maps a thrown error with
`err.kind === 'ObjectId'` to 404 and anything else to 500. -/
def getEmployeeById (u : User) (db : EmpDB) (p : IdParam) : Response :=
  match empFindById db p with
  | .error err =>
    if err.errKind == some "ObjectId" then failResp 404 "Employee not found"
    else failResp 500 "Server Error"
  | .ok Option.none => failResp 404 "Employee not found"
  | .ok (some e) =>
    if u.role ≠ "admin" ∧ u.officeId ≠ e.officeId then
      failResp 403 "Not authorized to access this employee"
    else okData 200 (RespData.emp e)

/-- POST /employees.  A non-admin may only create inside their own
office — this check runs before `Employee.create`.  For an unregistered
employee the course counts passed to the store are forced to 0
(`isRegisteredOnIGOT ? coursesEnrolled : 0`; `undefined` is falsy).
`reportDate || Date.now()` is modeled by `getD now`.  The catch block
maps a ValidationError to a 400 with the field messages joined by
`", "`, and anything else to 500. -/
def createEmployee (u : User) (db : EmpDB) (b : CreateBody)
    (nid : Nat) (now : Int) : Response × EmpDB :=
  if u.role ≠ "admin" ∧ b.officeId ≠ some u.officeId then
    (failResp 403 "Not authorized to add employees to this office", db)
  else
    match employeeCreate db nid now b.name b.officeId b.isRegisteredOnIGOT
        (if b.isRegisteredOnIGOT.getD false then b.coursesEnrolled else some 0)
        (if b.isRegisteredOnIGOT.getD false then b.coursesCompleted else some 0)
        (b.reportDate.getD now) u.id with
    | .ok (doc, db2) => (okData 201 (RespData.emp doc), db2)
    | .error (.validation msgs) =>
      (failResp 400 (String.intercalate ", " msgs), db)
    | .error _ => (failResp 500 "Server Error", db)

/-- The catch block shared by PUT /employees/:id (and PUT /offices/:id):
a ValidationError becomes a 400 with the joined messages; any other
error — including the CastError from a malformed id — becomes 500. -/
def putCatch (err : MErr) : Response :=
  match err with
  | .validation msgs => failResp 400 (String.intercalate ", " msgs)
  | _ => failResp 500 "Server Error"

/-- PUT /employees/:id.  Lookup, then 404 / frozen / ownership checks in
that order, then `findByIdAndUpdate` with `runValidators`.  The handler
never reads the clock (`_now` is the request time, unused: the update
path does not run the `pre('save')` hook and never touches
`updatedAt`). -/
def updateEmployee (u : User) (db : EmpDB) (p : IdParam) (b : EmployeeBody)
    (_now : Int) : Response × EmpDB :=
  match empFindById db p with
  | .error err => (putCatch err, db)
  | .ok Option.none => (failResp 404 "Employee not found", db)
  | .ok (some e) =>
    if e.isFrozen then
      (failResp 403 "This record is frozen and cannot be modified", db)
    else if u.role ≠ "admin" ∧ u.officeId ≠ e.officeId then
      (failResp 403 "Not authorized to update this employee", db)
    else
      match empFindByIdAndUpdate db p b with
      | .ok (some e2, db2) => (okData 200 (RespData.emp e2), db2)
      | .ok (Option.none, db2) => (okData 200 RespData.noData, db2)
      | .error err => (putCatch err, db)

/-- DELETE /employees/:id.  Lookup, then 404 / frozen / ownership checks
in that order.  The catch block maps every thrown error to 500. -/
def deleteEmployee (u : User) (db : EmpDB) (p : IdParam) :
    Response × EmpDB :=
  match empFindById db p with
  | .error _ => (failResp 500 "Server Error", db)
  | .ok Option.none => (failResp 404 "Employee not found", db)
  | .ok (some e) =>
    if e.isFrozen then
      (failResp 403 "This record is frozen and cannot be deleted", db)
    else if u.role ≠ "admin" ∧ u.officeId ≠ e.officeId then
      (failResp 403 "Not authorized to delete this employee", db)
    else
      match empFindByIdAndDelete db p with
      | .ok db2 => (okData 200 RespData.emptyObj, db2)
      | .error _ => (failResp 500 "Server Error", db)

/-- PUT /employees/freeze/:id (after the admin middleware).  The catch
block maps every thrown error to 500.  `_now` is the request time,
unused: `findByIdAndUpdate` never touches `updatedAt`. -/
def freezeEmployee (db : EmpDB) (p : IdParam) (_now : Int) :
    Response × EmpDB :=
  match p with
  | .malformed _ => (failResp 500 "Server Error", db)
  | .valid i =>
    match db.find? (fun e => e.id == i) with
    | Option.none => (failResp 404 "Employee not found", db)
    | some _ =>
      match empSetFrozen db i true with
      | (some e2, db2) =>
        (okMsg 200 "Employee record has been frozen" (RespData.emp e2), db2)
      | (Option.none, db2) =>
        (okMsg 200 "Employee record has been frozen" RespData.noData, db2)

/-- PUT /employees/unfreeze/:id (after the admin middleware). -/
def unfreezeEmployee (db : EmpDB) (p : IdParam) (_now : Int) :
    Response × EmpDB :=
  match p with
  | .malformed _ => (failResp 500 "Server Error", db)
  | .valid i =>
    match db.find? (fun e => e.id == i) with
    | Option.none => (failResp 404 "Employee not found", db)
    | some _ =>
      match empSetFrozen db i false with
      | (some e2, db2) =>
        (okMsg 200 "Employee record has been unfrozen" (RespData.emp e2), db2)
      | (Option.none, db2) =>
        (okMsg 200 "Employee record has been unfrozen" RespData.noData, db2)

/-- The create/update body accepted by the office routes. -/
structure OfficeBody where
  name : Option String
  location : Option String
  description : Option String
  deriving DecidableEq

/-- Document validation run by `Office.create`: `name` is required with
`maxlength 100`, `location` is required; messages in schema order. -/
def officeValidationMsgs (name location : Option String) : List String :=
  nameFieldMsgs "Please add an office name" name
  ++ (match location with
      | Option.none => ["Please add a location"]
      | some l => if strTrim l = "" then ["Please add a location"] else [])

/-- `Office.findById`. -/
def offFindById (db : OffDB) : IdParam → Except MErr (Option Office)
  | .malformed _ => .error .castObjectId
  | .valid i => .ok (db.find? (fun o => o.id == i))

/-- GET /offices/:id.  The catch block maps `err.kind === 'ObjectId'`
to 404 and anything else to 500. -/
def getOfficeById (u : User) (db : OffDB) (p : IdParam) : Response :=
  match offFindById db p with
  | .error err =>
    if err.errKind == some "ObjectId" then failResp 404 "Office not found"
    else failResp 500 "Server Error"
  | .ok Option.none => failResp 404 "Office not found"
  | .ok (some o) =>
    if u.role ≠ "admin" ∧ u.officeId ≠ o.id then
      failResp 403 "Not authorized to access this office"
    else okData 200 (RespData.office o)

/-- POST /offices (after the admin middleware).  `Office.create` runs
document validation; a ValidationError is reported as a 400 with the
field messages joined by `", "`. -/
def createOffice (u : User) (db : OffDB) (b : OfficeBody)
    (nid : Nat) (now : Int) : Response × OffDB :=
  let msgs := officeValidationMsgs b.name b.location
  if msgs = [] then
    let doc : Office :=
      { id := nid
        name := strTrim (b.name.getD "")
        location := strTrim (b.location.getD "")
        description := b.description.map strTrim
        createdBy := u.id
        createdAt := now }
    (okData 201 (RespData.office doc), db ++ [doc])
  else
    (failResp 400 (String.intercalate ", " msgs), db)

/-- Update validation run by `Office.findByIdAndUpdate` with
`runValidators: true`: only the paths present in the update. -/
def offUpdateValidationMsgs (b : OfficeBody) : List String :=
  (match b.name with
   | Option.none => []
   | some n => nameFieldMsgs "Please add an office name" (some n))
  ++ (match b.location with
      | Option.none => []
      | some l => if strTrim l = "" then ["Please add a location"] else [])

/-- `Office.findByIdAndUpdate(id, body, {new:true, runValidators:true})`. -/
def offFindByIdAndUpdate (db : OffDB) (p : IdParam) (b : OfficeBody) :
    Except MErr (Option Office × OffDB) :=
  match p with
  | .malformed _ => .error .castObjectId
  | .valid i =>
    let msgs := offUpdateValidationMsgs b
    if msgs = [] then
      match db.find? (fun o => o.id == i) with
      | Option.none => .ok (Option.none, db)
      | some o =>
        let o2 : Office :=
          { o with
            name := match b.name with
              | some n => strTrim n
              | Option.none => o.name
            location := match b.location with
              | some l => strTrim l
              | Option.none => o.location
            description := match b.description with
              | some d => some (strTrim d)
              | Option.none => o.description }
        .ok (some o2, db.map (fun x => if x.id == i then o2 else x))
    else
      .error (.validation msgs)

/-- PUT /offices/:id (after the admin middleware).  The catch block maps
a ValidationError to 400 and anything else — including the CastError
from a malformed id — to 500. -/
def updateOffice (db : OffDB) (p : IdParam) (b : OfficeBody) :
    Response × OffDB :=
  match offFindById db p with
  | .error err => (putCatch err, db)
  | .ok Option.none => (failResp 404 "Office not found", db)
  | .ok (some _) =>
    match offFindByIdAndUpdate db p b with
    | .ok (some o2, db2) => (okData 200 (RespData.office o2), db2)
    | .ok (Option.none, db2) => (okData 200 RespData.noData, db2)
    | .error err => (putCatch err, db)

/-- DELETE /offices/:id (after the admin middleware).  The catch block
maps every thrown error to 500. -/
def deleteOffice (db : OffDB) (p : IdParam) : Response × OffDB :=
  match offFindById db p with
  | .error _ => (failResp 500 "Server Error", db)
  | .ok Option.none => (failResp 404 "Office not found", db)
  | .ok (some _) =>
    match p with
    | .malformed _ => (failResp 500 "Server Error", db)
    | .valid i => (okData 200 RespData.emptyObj, db.filter (fun o => o.id != i))

/-! ## Concrete inputs used by the claim theorems and witnesses -/

/-- A registered employee with 5 courses enrolled and 5 completed. -/
def c1Emp : Employee :=
  { id := 1, name := "A", officeId := 1, isRegisteredOnIGOT := true,
    coursesEnrolled := 5, coursesCompleted := 5, reportDate := 10,
    isFrozen := false, createdBy := 1, createdAt := 10, updatedAt := 10 }

/-- An admin caller. -/
def c1User : User := { id := 9, role := "admin", officeId := 1 }

/-- A PUT body supplying only `coursesEnrolled := 0`. -/
def c1Body : EmployeeBody :=
  { name := Option.none, officeId := Option.none,
    isRegisteredOnIGOT := Option.none, coursesEnrolled := some 0,
    coursesCompleted := Option.none, reportDate := Option.none }

/-- A frozen employee record. -/
def c2Emp : Employee :=
  { id := 4, name := "F", officeId := 2, isRegisteredOnIGOT := false,
    coursesEnrolled := 0, coursesCompleted := 0, reportDate := 5,
    isFrozen := true, createdBy := 1, createdAt := 5, updatedAt := 5 }

/-- An admin caller (freeze-check claims: even admins are blocked). -/
def c2User : User := { id := 7, role := "admin", officeId := 2 }

/-- A PUT body with every field absent. -/
def emptyBody : EmployeeBody :=
  { name := Option.none, officeId := Option.none,
    isRegisteredOnIGOT := Option.none, coursesEnrolled := Option.none,
    coursesCompleted := Option.none, reportDate := Option.none }

/-! ## C1 -/

/-- C1: the claim states that after any successful create or update the
stored `coursesCompleted` is ≤ the stored `coursesEnrolled`, partial
updates included.  The code violates it: a PUT supplying only
`coursesEnrolled := 0` against a record with `coursesCompleted = 5`
succeeds with a 200 envelope (update validators only run on the paths
present in the update, and in update context the `coursesEnrolled`
validator reads `this.isRegisteredOnIGOT` as undefined, so it accepts
0), leaving the stored record with `coursesCompleted = 5 >
coursesEnrolled = 0`. -/
theorem c1_enrolled_only_update_breaks_invariant :
    (updateEmployee c1User [c1Emp] (IdParam.valid 1) c1Body 20).1.status = 200 ∧
    (updateEmployee c1User [c1Emp] (IdParam.valid 1) c1Body 20).2
      = [{ c1Emp with coursesEnrolled := 0 }] ∧
    ¬ (({ c1Emp with coursesEnrolled := 0 }).coursesCompleted
        ≤ ({ c1Emp with coursesEnrolled := 0 }).coursesEnrolled) := by
  decide

/-! ## C2 -/

/-- C2: for an existing employee record with `isFrozen = true`, both the
update and the delete operation fail with 403 Forbidden and leave the
store unchanged, for every authenticated caller — the handlers check the
freeze flag before any role test, so no role bypasses it. -/
theorem c2_frozen_blocks_update_and_delete (u : User) (db : EmpDB)
    (i : Nat) (e : Employee) (b : EmployeeBody) (t : Int)
    (hfind : db.find? (fun x => x.id == i) = some e)
    (hfrozen : e.isFrozen = true) :
    updateEmployee u db (IdParam.valid i) b t
      = (failResp 403 "This record is frozen and cannot be modified", db) ∧
    deleteEmployee u db (IdParam.valid i)
      = (failResp 403 "This record is frozen and cannot be deleted", db) := by
  constructor
  · simp [updateEmployee, empFindById, hfind, hfrozen]
  · simp [deleteEmployee, empFindById, hfind, hfrozen]

/-- Witness for C2: an admin caller against a concrete frozen record. -/
theorem c2_frozen_blocks_update_and_delete_witness :
    updateEmployee c2User [c2Emp] (IdParam.valid 4) emptyBody 9
      = (failResp 403 "This record is frozen and cannot be modified", [c2Emp]) ∧
    deleteEmployee c2User [c2Emp] (IdParam.valid 4)
      = (failResp 403 "This record is frozen and cannot be deleted", [c2Emp]) :=
  c2_frozen_blocks_update_and_delete c2User [c2Emp] 4 c2Emp emptyBody 9
    (by decide) (by decide)

/-! ## C10 -/

/-- A frozen employee in office 2. -/
def c10Emp : Employee :=
  { id := 6, name := "G", officeId := 2, isRegisteredOnIGOT := false,
    coursesEnrolled := 0, coursesCompleted := 0, reportDate := 5,
    isFrozen := true, createdBy := 1, createdAt := 5, updatedAt := 5 }

/-- A non-admin caller from a different office (office 3). -/
def c10User : User := { id := 11, role := "user", officeId := 3 }

/-- C10: in employee update and delete the freeze check is evaluated
before the office-ownership check, so for a frozen record every caller —
including a non-admin from a foreign office — receives the
frozen-specific Forbidden message, never the not-authorized message. -/
theorem c10_frozen_check_precedes_ownership (u : User) (db : EmpDB)
    (i : Nat) (e : Employee) (b : EmployeeBody) (t : Int)
    (hfind : db.find? (fun x => x.id == i) = some e)
    (hfrozen : e.isFrozen = true) :
    (updateEmployee u db (IdParam.valid i) b t).1.status = 403 ∧
    (updateEmployee u db (IdParam.valid i) b t).1.message
      = some "This record is frozen and cannot be modified" ∧
    (updateEmployee u db (IdParam.valid i) b t).1.message
      ≠ some "Not authorized to update this employee" ∧
    (deleteEmployee u db (IdParam.valid i)).1.status = 403 ∧
    (deleteEmployee u db (IdParam.valid i)).1.message
      = some "This record is frozen and cannot be deleted" ∧
    (deleteEmployee u db (IdParam.valid i)).1.message
      ≠ some "Not authorized to delete this employee" := by
  simp [updateEmployee, deleteEmployee, empFindById, hfind, hfrozen, failResp]

/-- Witness for C10: a non-admin caller from a foreign office against a
concrete frozen record still gets the frozen-specific messages. -/
theorem c10_frozen_check_precedes_ownership_witness :
    (updateEmployee c10User [c10Emp] (IdParam.valid 6) emptyBody 9).1.status = 403 ∧
    (updateEmployee c10User [c10Emp] (IdParam.valid 6) emptyBody 9).1.message
      = some "This record is frozen and cannot be modified" ∧
    (updateEmployee c10User [c10Emp] (IdParam.valid 6) emptyBody 9).1.message
      ≠ some "Not authorized to update this employee" ∧
    (deleteEmployee c10User [c10Emp] (IdParam.valid 6)).1.status = 403 ∧
    (deleteEmployee c10User [c10Emp] (IdParam.valid 6)).1.message
      = some "This record is frozen and cannot be deleted" ∧
    (deleteEmployee c10User [c10Emp] (IdParam.valid 6)).1.message
      ≠ some "Not authorized to delete this employee" :=
  c10_frozen_check_precedes_ownership c10User [c10Emp] 6 c10Emp emptyBody 9
    (by decide) (by decide)

/-! ## C3 -/

/-- C3: whenever the create request has `isRegisteredOnIGOT` false or
absent, a successful POST /employees stores a record with
`coursesEnrolled = 0` and `coursesCompleted = 0`, regardless of the
counts supplied in the body. -/
theorem c3_unregistered_create_forces_zero (u : User) (db : EmpDB)
    (b : CreateBody) (nid : Nat) (now : Int)
    (hreg : b.isRegisteredOnIGOT.getD false = false)
    (hsucc : (createEmployee u db b nid now).1.status = 201) :
    ∃ doc : Employee,
      (createEmployee u db b nid now).1.data = RespData.emp doc ∧
      doc.coursesEnrolled = 0 ∧ doc.coursesCompleted = 0 ∧
      (createEmployee u db b nid now).2 = db ++ [doc] := by
  by_cases hauth : u.role ≠ "admin" ∧ b.officeId ≠ some u.officeId
  · exfalso
    simp [createEmployee, hauth, failResp] at hsucc
  · by_cases hval :
      empValidationMsgs b.name b.officeId false 0 0 = []
    · refine ⟨{ id := nid, name := strTrim (b.name.getD ""),
                officeId := b.officeId.getD 0, isRegisteredOnIGOT := false,
                coursesEnrolled := 0, coursesCompleted := 0,
                reportDate := b.reportDate.getD now, isFrozen := false,
                createdBy := u.id, createdAt := now, updatedAt := now },
        ?_, rfl, rfl, ?_⟩ <;>
        simp [createEmployee, employeeCreate, hauth, hreg, hval, okData]
    · exfalso
      simp [createEmployee, employeeCreate, hauth, hreg, hval, failResp] at hsucc

/-- An admin caller for the C3 witness. -/
def c3User : User := { id := 12, role := "admin", officeId := 1 }

/-- A create body with `isRegisteredOnIGOT` absent and `coursesEnrolled
:= 5` supplied. -/
def c3Body : CreateBody :=
  { name := some "Jo", officeId := some 1, isRegisteredOnIGOT := Option.none,
    coursesEnrolled := some 5, coursesCompleted := Option.none,
    reportDate := Option.none }

/-- Witness for C3: the scenario from the spec — a create with
`isRegisteredOnIGOT` absent and `coursesEnrolled := 5` stores zeros. -/
theorem c3_unregistered_create_forces_zero_witness :
    ∃ doc : Employee,
      (createEmployee c3User [] c3Body 1 100).1.data = RespData.emp doc ∧
      doc.coursesEnrolled = 0 ∧ doc.coursesCompleted = 0 ∧
      (createEmployee c3User [] c3Body 1 100).2 = [] ++ [doc] :=
  c3_unregistered_create_forces_zero c3User [] c3Body 1 100 (by decide) (by decide)

/-! ## C4 -/

/-- An employee whose `updatedAt` is 50. -/
def c4Emp : Employee :=
  { id := 2, name := "C", officeId := 1, isRegisteredOnIGOT := false,
    coursesEnrolled := 0, coursesCompleted := 0, reportDate := 50,
    isFrozen := false, createdBy := 1, createdAt := 50, updatedAt := 50 }

/-- An admin caller for the C4 theorems. -/
def c4User : User := { id := 8, role := "admin", officeId := 1 }

/-- A PUT body supplying only a new `reportDate`. -/
def c4Body : EmployeeBody :=
  { name := Option.none, officeId := Option.none,
    isRegisteredOnIGOT := Option.none, coursesEnrolled := Option.none,
    coursesCompleted := Option.none, reportDate := some 60 }

/-- C4 counterexample: a PUT /employees/:id issued at time 999 succeeds
(200) yet leaves the stored `updatedAt` at its old value 50, and a
freeze at time 999 does the same — `findByIdAndUpdate` does not run the
`pre('save')` hook, so only create/save refreshes `updatedAt`.  The
claim that every successful mutation refreshes `updatedAt` to the
mutation time is therefore false. -/
theorem c4_findByIdAndUpdate_does_not_refresh_updatedAt :
    (updateEmployee c4User [c4Emp] (IdParam.valid 2) c4Body 999).1.status = 200 ∧
    ((updateEmployee c4User [c4Emp] (IdParam.valid 2) c4Body 999).2.map
        Employee.updatedAt) = [50] ∧
    (freezeEmployee [c4Emp] (IdParam.valid 2) 999).1.status = 200 ∧
    ((freezeEmployee [c4Emp] (IdParam.valid 2) 999).2.map
        Employee.updatedAt) = [50] ∧
    (50 : Int) ≠ 999 := by
  decide

/-- Every record in the store after a PUT /employees/:id carries the
`updatedAt` of some record that was already in the store: the update
path never touches `updatedAt`. -/
theorem update_preserves_updatedAt (u : User) (db : EmpDB) (p : IdParam)
    (b : EmployeeBody) (t : Int) :
    ∀ doc ∈ (updateEmployee u db p b t).2,
      ∃ old ∈ db, doc.updatedAt = old.updatedAt := by
  intro doc hdoc
  cases p with
  | malformed s =>
    exact ⟨doc, by simpa [updateEmployee, empFindById] using hdoc, rfl⟩
  | valid i =>
    rcases hfd : db.find? (fun e => e.id == i) with _ | e
    · exact ⟨doc, by simpa [updateEmployee, empFindById, hfd] using hdoc, rfl⟩
    · by_cases hfz : e.isFrozen
      · exact ⟨doc, by simpa [updateEmployee, empFindById, hfd, hfz] using hdoc, rfl⟩
      · by_cases hauth : u.role ≠ "admin" ∧ u.officeId ≠ e.officeId
        · exact ⟨doc,
            by simpa [updateEmployee, empFindById, hfd, hfz, hauth] using hdoc, rfl⟩
        · by_cases hval : empUpdateValidationMsgs b = []
          · have hdb : (updateEmployee u db (IdParam.valid i) b t).2
                = db.map (fun x => if x.id == i then applyUpdate b e else x) := by
              simp [updateEmployee, empFindById, empFindByIdAndUpdate,
                hfd, hfz, hauth, hval]
            rw [hdb] at hdoc
            rcases List.mem_map.1 hdoc with ⟨old, hold, hfo⟩
            by_cases hid : old.id == i
            · refine ⟨e, List.mem_of_find?_eq_some hfd, ?_⟩
              rw [← hfo]
              simp [hid, applyUpdate]
            · refine ⟨old, hold, ?_⟩
              rw [← hfo]
              simp [hid]
          · exact ⟨doc,
              by simpa [updateEmployee, empFindById, empFindByIdAndUpdate,
                hfd, hfz, hauth, hval] using hdoc, rfl⟩

/-- Every record in the store after `empSetFrozen` carries the
`updatedAt` of some record already in the store. -/
theorem setFrozen_mem_updatedAt (db : EmpDB) (i : Nat) (flag : Bool) :
    ∀ doc ∈ (empSetFrozen db i flag).2,
      ∃ old ∈ db, doc.updatedAt = old.updatedAt := by
  intro doc hdoc
  rcases hfd : db.find? (fun e => e.id == i) with _ | e
  · exact ⟨doc, by simpa [empSetFrozen, hfd] using hdoc, rfl⟩
  · have h2 : (empSetFrozen db i flag).2
        = db.map (fun x => if x.id == i then { e with isFrozen := flag } else x) := by
      simp [empSetFrozen, hfd]
    rw [h2] at hdoc
    rcases List.mem_map.1 hdoc with ⟨old, hold, hfo⟩
    by_cases hid : old.id == i
    · refine ⟨e, List.mem_of_find?_eq_some hfd, ?_⟩
      rw [← hfo]
      simp [hid]
    · refine ⟨old, hold, ?_⟩
      rw [← hfo]
      simp [hid]

/-- Every record in the store after a PUT /employees/freeze/:id carries
the `updatedAt` of some record already in the store. -/
theorem freeze_preserves_updatedAt (db : EmpDB) (p : IdParam) (t : Int) :
    ∀ doc ∈ (freezeEmployee db p t).2,
      ∃ old ∈ db, doc.updatedAt = old.updatedAt := by
  intro doc hdoc
  cases p with
  | malformed s => exact ⟨doc, by simpa [freezeEmployee] using hdoc, rfl⟩
  | valid i =>
    rcases hfd : db.find? (fun e => e.id == i) with _ | e
    · exact ⟨doc, by simpa [freezeEmployee, hfd] using hdoc, rfl⟩
    · rcases hsf : empSetFrozen db i true with ⟨o, db2⟩
      have h2 : (freezeEmployee db (IdParam.valid i) t).2 = db2 := by
        cases o <;> simp [freezeEmployee, hfd, hsf]
      refine setFrozen_mem_updatedAt db i true doc ?_
      rw [hsf]
      exact h2 ▸ hdoc

/-- Every record in the store after a PUT /employees/unfreeze/:id
carries the `updatedAt` of some record already in the store. -/
theorem unfreeze_preserves_updatedAt (db : EmpDB) (p : IdParam) (t : Int) :
    ∀ doc ∈ (unfreezeEmployee db p t).2,
      ∃ old ∈ db, doc.updatedAt = old.updatedAt := by
  intro doc hdoc
  cases p with
  | malformed s => exact ⟨doc, by simpa [unfreezeEmployee] using hdoc, rfl⟩
  | valid i =>
    rcases hfd : db.find? (fun e => e.id == i) with _ | e
    · exact ⟨doc, by simpa [unfreezeEmployee, hfd] using hdoc, rfl⟩
    · rcases hsf : empSetFrozen db i false with ⟨o, db2⟩
      have h2 : (unfreezeEmployee db (IdParam.valid i) t).2 = db2 := by
        cases o <;> simp [unfreezeEmployee, hfd, hsf]
      refine setFrozen_mem_updatedAt db i false doc ?_
      rw [hsf]
      exact h2 ▸ hdoc

/-- On a successful `Employee.create` the new store is the old one plus
the created document, whose `createdAt` and `updatedAt` are the request
time (defaults plus the `pre('save')` hook). -/
theorem employeeCreate_ok (db : EmpDB) (nid : Nat) (now : Int)
    (name : Option String) (officeId : Option Nat) (reg : Option Bool)
    (ce cc : Option Int) (rd : Int) (creator : Nat) (res : Employee × EmpDB)
    (h : employeeCreate db nid now name officeId reg ce cc rd creator = .ok res) :
    res.2 = db ++ [res.1] ∧ res.1.updatedAt = now ∧ res.1.createdAt = now := by
  simp only [employeeCreate] at h
  split at h
  · injection h with h2
    subst h2
    exact ⟨rfl, rfl, rfl⟩
  · exact absurd h (by simp)

/-- Every record in the store after a POST /employees was either already
stored or carries the request time as its `updatedAt`. -/
theorem create_sets_updatedAt (u : User) (db : EmpDB) (b : CreateBody)
    (nid : Nat) (now : Int) :
    ∀ doc ∈ (createEmployee u db b nid now).2,
      doc ∈ db ∨ doc.updatedAt = now := by
  intro doc hdoc
  by_cases hauth : u.role ≠ "admin" ∧ b.officeId ≠ some u.officeId
  · exact Or.inl (by simpa [createEmployee, hauth] using hdoc)
  · rcases hec : employeeCreate db nid now b.name b.officeId b.isRegisteredOnIGOT
        (if b.isRegisteredOnIGOT.getD false then b.coursesEnrolled else some 0)
        (if b.isRegisteredOnIGOT.getD false then b.coursesCompleted else some 0)
        (b.reportDate.getD now) u.id with err | ⟨rdoc, rdb⟩
    · cases err <;>
        exact Or.inl (by simpa [createEmployee, hauth, hec] using hdoc)
    · have hmem : doc ∈ rdb := by
        simpa [createEmployee, hauth, hec] using hdoc
      rcases employeeCreate_ok db nid now b.name b.officeId b.isRegisteredOnIGOT
          _ _ (b.reportDate.getD now) u.id (rdoc, rdb) hec with ⟨hdb, hupd, _⟩
      simp only at hdb hupd
      rw [hdb] at hmem
      rcases List.mem_append.1 hmem with hin | hnew
      · exact Or.inl hin
      · right
        rw [List.mem_singleton.1 hnew]
        exact hupd

/-- C4 amended: `updatedAt` is refreshed (set to the request time) on
create, because `save` runs the `pre('save')` hook; but PUT
/employees/:id, freeze and unfreeze go through `findByIdAndUpdate`,
which does not run the hook, so every record they leave in the store
keeps the `updatedAt` of a record that was already stored — those
mutations never refresh `updatedAt`. -/
theorem c4_amended_updatedAt_refreshed_only_on_create (u : User)
    (db : EmpDB) (cb : CreateBody) (b : EmployeeBody) (p : IdParam)
    (nid : Nat) (now t : Int) :
    (∀ doc ∈ (createEmployee u db cb nid now).2,
      doc ∈ db ∨ doc.updatedAt = now) ∧
    (∀ doc ∈ (updateEmployee u db p b t).2,
      ∃ old ∈ db, doc.updatedAt = old.updatedAt) ∧
    (∀ doc ∈ (freezeEmployee db p t).2,
      ∃ old ∈ db, doc.updatedAt = old.updatedAt) ∧
    (∀ doc ∈ (unfreezeEmployee db p t).2,
      ∃ old ∈ db, doc.updatedAt = old.updatedAt) :=
  ⟨create_sets_updatedAt u db cb nid now,
   update_preserves_updatedAt u db p b t,
   freeze_preserves_updatedAt db p t,
   unfreeze_preserves_updatedAt db p t⟩

/-- Witness for the amended C4: the record stored after a concrete
successful PUT at time 999 keeps the `updatedAt` of the pre-existing
record. -/
theorem c4_amended_updatedAt_refreshed_only_on_create_witness :
    ∃ old ∈ [c4Emp],
      ({ c4Emp with reportDate := 60 } : Employee).updatedAt = old.updatedAt :=
  (c4_amended_updatedAt_refreshed_only_on_create c4User [c4Emp] emptyBody
      c4Body (IdParam.valid 2) 3 100 999).2.1
    { c4Emp with reportDate := 60 } (by decide)

/-! ## C5 -/

/-- C5 counterexample: a malformed id sent to DELETE /employees/:id
produces a 500 Server Error, not the 404 the claim requires — the
delete handler's catch block has no `err.kind === 'ObjectId'` branch. -/
theorem c5_malformed_id_delete_is_500 :
    (deleteEmployee c1User [] (IdParam.malformed "xyz")).1
      = failResp 500 "Server Error" := by
  decide

/-- C5 amended: a malformed id yields 404 only on the two GET-by-id
routes, whose catch blocks test `err.kind === 'ObjectId'`; employee
update, delete, freeze and unfreeze and office update and delete map the
same CastError to 500 (their catch blocks test only
`err.name === 'ValidationError'`, or nothing). -/
theorem c5_amended_malformed_id_statuses (s : String) (u : User)
    (edb : EmpDB) (odb : OffDB) (b : EmployeeBody) (ob : OfficeBody)
    (t : Int) :
    (getEmployeeById u edb (IdParam.malformed s)).status = 404 ∧
    (getOfficeById u odb (IdParam.malformed s)).status = 404 ∧
    (updateEmployee u edb (IdParam.malformed s) b t).1.status = 500 ∧
    (deleteEmployee u edb (IdParam.malformed s)).1.status = 500 ∧
    (freezeEmployee edb (IdParam.malformed s) t).1.status = 500 ∧
    (unfreezeEmployee edb (IdParam.malformed s) t).1.status = 500 ∧
    (updateOffice odb (IdParam.malformed s) ob).1.status = 500 ∧
    (deleteOffice odb (IdParam.malformed s)).1.status = 500 :=
  ⟨rfl, rfl, rfl, rfl, rfl, rfl, rfl, rfl⟩

/-! ## C6 -/

/-- A non-admin caller from office 1. -/
def c6User : User := { id := 3, role := "user", officeId := 1 }

/-- A create body with the required `name` missing and a foreign
`officeId`. -/
def c6Body : CreateBody :=
  { name := Option.none, officeId := some 2,
    isRegisteredOnIGOT := Option.none, coursesEnrolled := Option.none,
    coursesCompleted := Option.none, reportDate := Option.none }

/-- C6 counterexample: a non-admin employee-create request with a
missing required field and a foreign `officeId` receives the 403
ownership denial, not the aggregated 400 ValidationError — the route's
ownership check runs before `Employee.create` ever validates the
body. -/
theorem c6_ownership_check_fires_before_validation :
    (createEmployee c6User [] c6Body 5 100).1
      = failResp 403 "Not authorized to add employees to this office" := by
  decide

/-- C6 amended: field violations are indeed aggregated into a single 400
message joined by `", "` when store validation runs (office create with
both required fields missing reports both messages in one string), but
the employee-create ownership check is evaluated before store
validation, so a non-admin creating into a foreign office gets 403
regardless of any field violations in the body. -/
theorem c6_amended_aggregation_and_ordering (u : User) (db : EmpDB)
    (odb : OffDB) (b : CreateBody) (d : Option String) (nid onid : Nat)
    (now : Int)
    (hrole : u.role ≠ "admin") (hforeign : b.officeId ≠ some u.officeId) :
    (createEmployee u db b nid now).1
      = failResp 403 "Not authorized to add employees to this office" ∧
    (createEmployee u db b nid now).2 = db ∧
    (createOffice u odb
        { name := Option.none, location := Option.none, description := d }
        onid now).1
      = failResp 400 "Please add an office name, Please add a location" := by
  refine ⟨?_, ?_, rfl⟩ <;> simp [createEmployee, hrole, hforeign]

/-- Witness for the amended C6: the concrete non-admin foreign-office
create with a missing name, and the concrete office create missing both
required fields. -/
theorem c6_amended_aggregation_and_ordering_witness :
    (createEmployee c6User [] c6Body 5 100).1
      = failResp 403 "Not authorized to add employees to this office" ∧
    (createEmployee c6User [] c6Body 5 100).2 = [] ∧
    (createOffice c6User []
        { name := Option.none, location := Option.none,
          description := Option.none }
        6 100).1
      = failResp 400 "Please add an office name, Please add a location" :=
  c6_amended_aggregation_and_ordering c6User [] [] c6Body Option.none 5 6 100
    (by decide) (by decide)

/-! ## C8 -/

/-- C8: with both `startDate` and `endDate` supplied, GET
/employees/report returns exactly the records visible to the caller
(all of them for an admin, own office otherwise) whose `reportDate`
lies in the inclusive range — boundary dates included, nothing outside
the range. -/
theorem c8_report_inclusive_range (u : User) (db : EmpDB) (s e : Int)
    (emp : Employee) :
    (reportEmployees u db (some s) (some e)).data
      = RespData.emps (reportList u db (some s) (some e)) ∧
    (emp ∈ reportList u db (some s) (some e) ↔
      emp ∈ db ∧ (u.role = "admin" ∨ emp.officeId = u.officeId) ∧
        s ≤ emp.reportDate ∧ emp.reportDate ≤ e) := by
  refine ⟨rfl, ?_⟩
  simp only [reportList, reportQueryFilter, List.mem_filter,
    Bool.and_eq_true, decide_eq_true_eq, beq_iff_eq]
  by_cases hadm : u.role = "admin"
  · simp [hadm]
  · simp [hadm]
    tauto

/-! ## C9 -/

/-- C9: if exactly one of `startDate`, `endDate` is supplied (the other
absent or empty, hence falsy), no date filter is applied: the result
equals the caller's full visible record set, exactly as when neither
parameter is given. -/
theorem c9_single_date_means_no_filter (u : User) (db : EmpDB)
    (s e : Int) :
    reportEmployees u db (some s) Option.none
      = reportEmployees u db Option.none Option.none ∧
    reportEmployees u db Option.none (some e)
      = reportEmployees u db Option.none Option.none ∧
    (reportEmployees u db Option.none Option.none).data
      = RespData.emps (visibleEmployees u db) := by
  refine ⟨rfl, rfl, ?_⟩
  have hfun : ∀ a, reportQueryFilter u Option.none Option.none a
      = (if u.role ≠ "admin" then a.officeId == u.officeId else true) := by
    intro a
    simp [reportQueryFilter]
  simp only [reportEmployees, okCount, reportList, visibleEmployees]
  rw [List.filter_congr (fun a _ => hfun a)]
  by_cases hadm : u.role = "admin" <;> simp [hadm]

/-! ## C7 -/

/-- The `reduce((sum, e) => sum + f e, 0)` pattern computes the sum of
the mapped values. -/
theorem foldl_add_eq_sum (f : Employee → Int) (l : List Employee)
    (init : Int) :
    l.foldl (fun s e => s + f e) init = init + (l.map f).sum := by
  induction l generalizing init with
  | nil => simp
  | cons x xs ih =>
    simp only [List.foldl_cons, List.map_cons, List.sum_cons, ih]
    ring

/-- The dashboard computation written with list sums in place of the
folds, and with the subtraction and completion-rate branch explicit. -/
theorem dashboardData_spec (u : User) (db : EmpDB) :
    dashboardData u db =
      { totalEmployees := (visibleEmployees u db).length
        registeredOnIGOT :=
          ((visibleEmployees u db).filter (fun e => e.isRegisteredOnIGOT)).length
        notRegisteredOnIGOT := (visibleEmployees u db).length
          - ((visibleEmployees u db).filter (fun e => e.isRegisteredOnIGOT)).length
        totalCoursesEnrolled := ((visibleEmployees u db).map Employee.coursesEnrolled).sum
        totalCoursesCompleted := ((visibleEmployees u db).map Employee.coursesCompleted).sum
        completionRate := toFixed2
          (if 0 < ((visibleEmployees u db).map Employee.coursesEnrolled).sum then
            (((visibleEmployees u db).map Employee.coursesCompleted).sum : ℚ)
              / (((visibleEmployees u db).map Employee.coursesEnrolled).sum : ℚ) * 100
          else 0) } := by
  simp only [dashboardData]
  rw [foldl_add_eq_sum, foldl_add_eq_sum]
  simp

/-- C7: over the caller's visible record set the dashboard satisfies
`registeredOnIGOT + notRegisteredOnIGOT = totalEmployees`; the reported
course totals are the sums over the visible records; `completionRate`
is `0.00` whenever the enrolled sum is 0, and otherwise is
`100 × completed / enrolled` rendered to two decimal places (a multiple
of 1/100, within half of 1/100 of the exact ratio).  The
hypothesis that stored enrolled counts are nonnegative is the schema
invariant every stored record satisfies. -/
theorem c7_dashboard_summary (u : User) (db : EmpDB)
    (hpos : ∀ emp ∈ db, 0 ≤ emp.coursesEnrolled) :
    (dashboardData u db).registeredOnIGOT
        + (dashboardData u db).notRegisteredOnIGOT
      = (dashboardData u db).totalEmployees ∧
    (dashboardData u db).totalCoursesEnrolled
      = ((visibleEmployees u db).map Employee.coursesEnrolled).sum ∧
    (dashboardData u db).totalCoursesCompleted
      = ((visibleEmployees u db).map Employee.coursesCompleted).sum ∧
    (((visibleEmployees u db).map Employee.coursesEnrolled).sum = 0 →
      (dashboardData u db).completionRate = 0) ∧
    (((visibleEmployees u db).map Employee.coursesEnrolled).sum ≠ 0 →
      |(dashboardData u db).completionRate
          - 100 * (((visibleEmployees u db).map Employee.coursesCompleted).sum : ℚ)
            / (((visibleEmployees u db).map Employee.coursesEnrolled).sum : ℚ)|
        ≤ 1 / 200 ∧
      ∃ n : ℤ, (dashboardData u db).completionRate = (n : ℚ) / 100) := by
  have hsub : visibleEmployees u db ⊆ db := by
    simp only [visibleEmployees]
    split
    · exact fun x hx => (List.mem_filter.1 hx).1
    · exact fun x hx => hx
  rw [dashboardData_spec]
  dsimp only
  refine ⟨?_, rfl, rfl, ?_, ?_⟩
  · have hle := List.length_filter_le (fun e => e.isRegisteredOnIGOT)
      (visibleEmployees u db)
    omega
  · intro hzero
    rw [hzero]
    simp [toFixed2]
  · intro hne
    have hnonneg : 0 ≤ ((visibleEmployees u db).map Employee.coursesEnrolled).sum := by
      refine List.sum_nonneg ?_
      intro x hx
      rcases List.mem_map.1 hx with ⟨emp, hemp, rfl⟩
      exact hpos emp (hsub hemp)
    have hlt : 0 < ((visibleEmployees u db).map Employee.coursesEnrolled).sum :=
      lt_of_le_of_ne hnonneg (Ne.symm hne)
    rw [if_pos hlt]
    constructor
    · have hround := abs_sub_round
        ((((visibleEmployees u db).map Employee.coursesCompleted).sum : ℚ)
          / (((visibleEmployees u db).map Employee.coursesEnrolled).sum : ℚ) * 100 * 100)
      simp only [toFixed2]
      rw [show ((round ((((visibleEmployees u db).map Employee.coursesCompleted).sum : ℚ)
            / (((visibleEmployees u db).map Employee.coursesEnrolled).sum : ℚ) * 100 * 100) : ℤ) : ℚ) / 100
          - 100 * (((visibleEmployees u db).map Employee.coursesCompleted).sum : ℚ)
            / (((visibleEmployees u db).map Employee.coursesEnrolled).sum : ℚ)
        = -(((((visibleEmployees u db).map Employee.coursesCompleted).sum : ℚ)
            / (((visibleEmployees u db).map Employee.coursesEnrolled).sum : ℚ) * 100 * 100
          - (round ((((visibleEmployees u db).map Employee.coursesCompleted).sum : ℚ)
            / (((visibleEmployees u db).map Employee.coursesEnrolled).sum : ℚ) * 100 * 100) : ℤ)) / 100)
        from by ring]
      rw [abs_neg, abs_div]
      rw [show |(100 : ℚ)| = 100 from by norm_num]
      linarith
    · exact ⟨round ((((visibleEmployees u db).map Employee.coursesCompleted).sum : ℚ)
        / (((visibleEmployees u db).map Employee.coursesEnrolled).sum : ℚ) * 100 * 100), rfl⟩

/-- A concrete visible set for the C7 witness: one registered employee
with 4 enrolled / 1 completed and one unregistered employee. -/
def c7Db : EmpDB :=
  [{ id := 21, name := "R", officeId := 5, isRegisteredOnIGOT := true,
     coursesEnrolled := 4, coursesCompleted := 1, reportDate := 7,
     isFrozen := false, createdBy := 2, createdAt := 7, updatedAt := 7 },
   { id := 22, name := "S", officeId := 5, isRegisteredOnIGOT := false,
     coursesEnrolled := 0, coursesCompleted := 0, reportDate := 8,
     isFrozen := false, createdBy := 2, createdAt := 8, updatedAt := 8 }]

/-- An admin caller for the C7 witness. -/
def c7User : User := { id := 20, role := "admin", officeId := 5 }

/-- Witness for C7 at a concrete store. -/
theorem c7_dashboard_summary_witness :
    (dashboardData c7User c7Db).registeredOnIGOT
        + (dashboardData c7User c7Db).notRegisteredOnIGOT
      = (dashboardData c7User c7Db).totalEmployees :=
  (c7_dashboard_summary c7User c7Db (by decide)).1
